import Mathlib

/-!
Shallow embedding of the AI Avatar backend server (src/backend/main.py).

The server keeps one module-level mutable `conversation_history` list, two
module-level provider handles (`groq_client`, `gemini_model`), and serves a
websocket endpoint `websocket_chat` that processes inbound JSON frames one at
a time.  Remote provider calls are opaque streaming services: we model one
call's observable behaviour as the list of chunks it produced before either
finishing normally or raising, which is exactly what the two generator
functions in the source consume.
-/

namespace AvatarBackend

/-- A conversation entry, `{"role": ..., "content": ...}` as appended to
`conversation_history` in the source. -/
structure Message where
  role : String
  content : String
deriving DecidableEq

/-- The module-level `SYSTEM_PROMPT` string from main.py (lines 62-74). -/
def SYSTEM_PROMPT : String :=
  "You are Sara, a Lead Engineer at AdxReel.\nYou are interviewing a candidate for an AI Engineer role.\n\nSTYLE GUIDELINES:\n1. **Conversational Professionalism**: Speak in full, natural sentences. Be friendly but efficient.\n2. **Concise**: Keep responses under 3 sentences. Avoid long monologues.\n3. **Role**: You are the interviewer. Ask probing questions about their technical experience.\n4. **No Meta-Talk**: Do not mention that this is a simulation.\n\nExample:\nUser: \"Tell me about the role.\"\nYou: \"We\x27re building real-time AI avatars. I need someone strong in Python and Three.js. How is your experience with WebGL?\"\n"

/-- An outbound wire frame, one JSON object sent with `manager.send_message`.
Tags mirror the `type` strings of the source: `token`, `thinking`,
`complete`, `error`, `reset_complete`, `pong`. -/
inductive Frame where
  | token (content : String)
  | thinking (content : String)
  | complete (content : String)
  | error (content : String)
  | reset_complete (content : String)
  | pong (timestamp : String)
deriving DecidableEq

/-- A frame is terminal for a turn when it is `complete` or `error`. -/
def Frame.isTerminal : Frame → Bool
  | Frame.complete _ => true
  | Frame.error _ => true
  | _ => false

/-- Recognises `token` frames. -/
def Frame.isToken : Frame → Bool
  | Frame.token _ => true
  | _ => false

/-- Recognises `error` frames. -/
def Frame.isError : Frame → Bool
  | Frame.error _ => true
  | _ => false

/-- Observable behaviour of one remote streaming call: the text chunks the
stream yielded, in order, and `err = some msg` when the call raised (possibly
mid-stream, after the listed chunks were already yielded), `none` when the
stream finished normally. -/
structure StreamResult where
  chunks : List String
  err : Option String
deriving DecidableEq

/-- Python slice `l[-k:]`: the last at most `k` elements of `l`. -/
def takeLast {α : Type} (k : Nat) (l : List α) : List α :=
  l.drop (l.length - k)

/-- Chunks actually forwarded: both generators guard each chunk with a Python
truthiness test (`if chunk.choices[0].delta.content:` resp. `if chunk.text:`),
so empty chunks are neither sent nor accumulated. -/
def sentChunks (res : StreamResult) : List String :=
  res.chunks.filter (fun c => !(c = ""))

/-- Embedding of `generate_groq_response` (main.py lines 130-163): builds the
request message list (`SYSTEM_PROMPT` as the leading system message, then the
last 10 history messages with roles mapped to user/assistant), forwards each
truthy chunk as a `token` frame, and returns the accumulated text, or raises
the underlying exception text.  Result: (request messages, frames sent,
outcome). -/
def generate_groq_response (messages : List Message) (res : StreamResult) :
    List Message × List Frame × Except String String :=
  let groq_messages :=
    Message.mk "system" SYSTEM_PROMPT ::
      (takeLast 10 messages).map
        (fun msg => Message.mk (if msg.role = "user" then "user" else "assistant") msg.content)
  let tokens := (sentChunks res).map Frame.token
  match res.err with
  | none => (groq_messages, tokens, Except.ok (String.join (sentChunks res)))
  | some e => (groq_messages, tokens, Except.error e)

/-- Embedding of `generate_gemini_response` (main.py lines 165-197): builds a
single flattened context string (`SYSTEM_PROMPT`, a header, one labelled line
per message of the last 10, then a trailing cue), forwards each truthy chunk
as a `token` frame, and returns the accumulated text or raises.  Result:
(request context string, frames sent, outcome). -/
def generate_gemini_response (messages : List Message) (res : StreamResult) :
    String × List Frame × Except String String :=
  let context :=
    SYSTEM_PROMPT ++ "\n\nConversation so far:\n" ++
      String.join ((takeLast 10 messages).map
        (fun msg =>
          (if msg.role = "user" then "Interviewer" else "You") ++ ": " ++ msg.content ++ "\n")) ++
      "\nYou:"
  let tokens := (sentChunks res).map Frame.token
  match res.err with
  | none => (context, tokens, Except.ok (String.join (sentChunks res)))
  | some e => (context, tokens, Except.error e)

/-- The mutable module-level state of main.py: the two provider handles
(`groq_client`, `gemini_model`, modelled as configured-or-not) and the single
process-wide `conversation_history` list (main.py line 78). -/
structure ServerState where
  groq_client : Bool
  gemini_model : Bool
  conversation_history : List Message
deriving DecidableEq

/-- Environment of one loop iteration: the behaviour the two remote services
would exhibit if called this turn, and the current wall-clock timestamp
(`datetime.now().isoformat()`). -/
structure TurnEnv where
  groqRes : StreamResult
  gemRes : StreamResult
  now : String
deriving DecidableEq

/-- One inbound JSON frame as received by `websocket.receive_json()`: the
optional "type" and "content" fields. -/
structure InboundFrame where
  typeField : Option String
  contentField : Option String
deriving DecidableEq

/-- Source line 208: `message_type = data.get("type", "message")`. -/
def frameType (d : InboundFrame) : String :=
  d.typeField.getD "message"

/-- Source line 211: `user_message = data.get("content", "")`. -/
def frameContent (d : InboundFrame) : String :=
  d.contentField.getD ""

/-- Embedding of one iteration of the `websocket_chat` receive loop
(main.py lines 205-299) processing one inbound frame: returns the updated
module state and the list of frames sent to this client, in send order.

Branches mirror the source: on a `message` frame, an empty content is
rejected with an `error` frame before any history append; otherwise the user
message is appended, the no-provider case emits a single `error` frame, and
otherwise a `thinking` frame is sent, Groq is preferred when configured
(Gemini otherwise), success emits `complete` and appends the assistant
message, and a failure falls back to Gemini (only when both handles are
configured), emitting `error` with the original exception text when the
fallback fails or does not exist.  `reset` clears the shared history and
`ping` answers with `pong`; any other type is silently ignored. -/
def processFrame (st : ServerState) (env : TurnEnv) (d : InboundFrame) :
    ServerState × List Frame :=
  let message_type := frameType d
  if message_type = "message" then
    let user_message := frameContent d
    if user_message = "" then
      (st, [Frame.error "Empty message received"])
    else
      let hist := st.conversation_history ++ [Message.mk "user" user_message]
      let st' := { st with conversation_history := hist }
      if !st.groq_client && !st.gemini_model then
        (st', [Frame.error "No LLM provider configured. Please set an API key."])
      else
        let gen :=
          if st.groq_client then
            (generate_groq_response hist env.groqRes).2
          else if st.gemini_model then
            (generate_gemini_response hist env.gemRes).2
          else ([], Except.ok "")
        match gen with
        | (genFrames, Except.ok full_response) =>
          ({ st' with conversation_history := hist ++ [Message.mk "assistant" full_response] },
            Frame.thinking "Thinking..." :: genFrames ++ [Frame.complete full_response])
        | (genFrames, Except.error e) =>
          if st.groq_client && st.gemini_model then
            match (generate_gemini_response hist env.gemRes).2 with
            | (fbFrames, Except.ok full_response) =>
              ({ st' with conversation_history := hist ++ [Message.mk "assistant" full_response] },
                Frame.thinking "Thinking..." :: genFrames ++ fbFrames ++ [Frame.complete full_response])
            | (fbFrames, Except.error _) =>
              (st', Frame.thinking "Thinking..." :: genFrames ++ fbFrames ++
                [Frame.error ("Error generating response: " ++ e)])
          else
            (st', Frame.thinking "Thinking..." :: genFrames ++
              [Frame.error ("Error generating response: " ++ e)])
  else if message_type = "reset" then
    ({ st with conversation_history := [] }, [Frame.reset_complete "Conversation reset"])
  else if message_type = "ping" then
    (st, [Frame.pong env.now])
  else
    (st, [])

/-- The `websocket_chat` handler body is the same closure for every accepted
connection and reads and writes the single module-level state; the connection
identity does not enter store access.  Processing a frame that arrived on
connection `conn` is therefore `processFrame` on the shared state. -/
def processOnConnection (st : ServerState) (env : TurnEnv) (_conn : Nat)
    (d : InboundFrame) : ServerState × List Frame :=
  processFrame st env d

/-- Embedding of `GET /api/conversation` (main.py lines 307-310): returns the
full module-level history, for any connection that queries it. -/
def get_conversation (st : ServerState) : List Message :=
  st.conversation_history

/-- Python `str.lower()` as applied to the provider name (ASCII case fold,
mapping each character independently). -/
def pyLower (s : String) : String :=
  String.mk (s.data.map Char.toLower)

/-- Outcome of `POST /api/configure`: a success JSON body, or an
`HTTPException(status_code=400, detail=...)`. -/
inductive ConfigureResult where
  | success (message : String)
  | httpError (status : Nat) (detail : String)
deriving DecidableEq

/-- Embedding of `configure_api` (main.py lines 115-128).  The source only
imports `AsyncGroq` (`from groq import AsyncGroq`, line 19); the name `Groq`
used on line 121 is unbound in the module, so the groq branch raises
`NameError` before any assignment to `groq_client`; the blanket
`except Exception` converts it to an HTTP 400 response and the module state
is unchanged.  The gemini branch configures the SDK and replaces
`gemini_model`; a raising SDK call (`genaiRaises = some e`) likewise becomes
an HTTP 400 with the state unchanged. -/
def configure_api (st : ServerState) (_api_key : String) (provider : String)
    (genaiRaises : Option String) : ServerState × ConfigureResult :=
  if pyLower provider = "groq" then
    (st, ConfigureResult.httpError 400 "name \x27Groq\x27 is not defined")
  else
    match genaiRaises with
    | none => ({ st with gemini_model := true },
        ConfigureResult.success "Gemini configured successfully")
    | some e => (st, ConfigureResult.httpError 400 e)

/-! Helper lemmas shared by several results. -/

lemma filter_isError_map_token (l : List String) :
    (l.map Frame.token).filter Frame.isError = [] := by
  induction l with
  | nil => rfl
  | cons a t ih => simp [Frame.isError, ih]

lemma getLast?_cons_concat (x : Frame) (l : List Frame) (t : Frame) :
    (x :: (l ++ [t])).getLast? = some t := by
  rw [← List.cons_append]
  exact List.getLast?_concat _

lemma getLast?_cons_append_concat (x : Frame) (a b : List Frame) (t : Frame) :
    (x :: (a ++ (b ++ [t]))).getLast? = some t := by
  rw [← List.append_assoc]
  exact getLast?_cons_concat x (a ++ b) t

/-- C9: an inbound JSON frame with no "type" key defaults to type "message"
and is processed exactly as an explicit message frame carrying the same
"content" field would be, rather than being ignored as an unrecognized
type. -/
theorem missing_type_defaults_to_message (st : ServerState) (env : TurnEnv)
    (c : Option String) :
    frameType (InboundFrame.mk none c) = "message" ∧
    processFrame st env (InboundFrame.mk none c) =
      processFrame st env (InboundFrame.mk (some "message") c) :=
  ⟨rfl, rfl⟩

/-- C7: the reconfiguration endpoint called with provider "groq" always
fails: the groq branch evaluates the unbound name `Groq` (only `AsyncGroq`
is imported), raising NameError, which the handler converts to an HTTP 400
failure response; the module state is unchanged and the Primary provider is
never left configured by this endpoint. -/
theorem configure_groq_always_fails (st : ServerState) (key : String)
    (g : Option String) :
    configure_api st key "groq" g =
      (st, ConfigureResult.httpError 400 "name \x27Groq\x27 is not defined") := by
  unfold configure_api
  rw [if_pos (show pyLower "groq" = "groq" from by decide)]

/-- C4 fails on the source: the conversation store is the single
module-level `conversation_history` list shared by every connection, so a
`reset` frame processed on connection 0 changes the history that
connection 1 observes through the conversation query. -/
theorem shared_store_counterexample :
    get_conversation
        (processOnConnection ⟨false, false, [Message.mk "user" "hello"]⟩
          ⟨⟨[], none⟩, ⟨[], none⟩, "t"⟩ 0
          (InboundFrame.mk (some "reset") none)).1 ≠
      get_conversation ⟨false, false, [Message.mk "user" "hello"]⟩ := by
  decide

/-- C4 amended: the conversation store is one process-wide instance shared
by every session.  Processing any inbound frame is independent of the
connection it arrived on; every connection observes the same history
through the conversation query; a `reset` processed on any connection
leaves the empty history for every connection to observe; and a non-empty
`message` frame processed on any connection changes (strictly extends) the
history that every connection observes. -/
theorem conversation_store_shared (st : ServerState) (env : TurnEnv)
    (c c' : Nat) (d : InboundFrame) :
    processOnConnection st env c d = processOnConnection st env c' d ∧
    get_conversation (processOnConnection st env c d).1 =
      get_conversation (processOnConnection st env c' d).1 ∧
    (frameType d = "reset" →
      get_conversation (processOnConnection st env c d).1 = []) ∧
    (frameType d = "message" → frameContent d ≠ "" →
      get_conversation (processOnConnection st env c d).1 ≠
        get_conversation st) := by
  refine ⟨rfl, rfl, ?_, ?_⟩
  · intro h
    simp [processOnConnection, processFrame, h, get_conversation]
  · intro hty hc
    obtain ⟨⟨gc, gerr⟩, ⟨mc, merr⟩, now⟩ := env
    have hlen : st.conversation_history.length <
        (processFrame st ⟨⟨gc, gerr⟩, ⟨mc, merr⟩, now⟩ d).1.conversation_history.length := by
      cases hgq : st.groq_client <;> cases hgm : st.gemini_model <;>
        rcases gerr with _ | e <;> rcases merr with _ | e2 <;>
        simp [processFrame, generate_groq_response, generate_gemini_response,
          hty, hc, hgq, hgm]
    intro heq
    have := congrArg List.length heq
    simp only [get_conversation, processOnConnection] at this
    omega

/-- Witness for the amended C4 statement at a concrete shared state,
instantiating the theorem once on a reset frame and once on a non-empty
message frame. -/
theorem conversation_store_shared_witness :
    processOnConnection ⟨false, false, [Message.mk "user" "hello"]⟩
        ⟨⟨[], none⟩, ⟨[], none⟩, "t"⟩ 0 (InboundFrame.mk (some "reset") none) =
      processOnConnection ⟨false, false, [Message.mk "user" "hello"]⟩
        ⟨⟨[], none⟩, ⟨[], none⟩, "t"⟩ 1 (InboundFrame.mk (some "reset") none) ∧
    get_conversation
        (processOnConnection ⟨false, false, [Message.mk "user" "hello"]⟩
          ⟨⟨[], none⟩, ⟨[], none⟩, "t"⟩ 0
          (InboundFrame.mk (some "reset") none)).1 = [] ∧
    get_conversation
        (processOnConnection ⟨false, false, [Message.mk "user" "hello"]⟩
          ⟨⟨[], none⟩, ⟨[], none⟩, "t"⟩ 0
          (InboundFrame.mk (some "message") (some "hi"))).1 ≠
      get_conversation ⟨false, false, [Message.mk "user" "hello"]⟩ :=
  ⟨(conversation_store_shared ⟨false, false, [Message.mk "user" "hello"]⟩
      ⟨⟨[], none⟩, ⟨[], none⟩, "t"⟩ 0 1 (InboundFrame.mk (some "reset") none)).1,
   (conversation_store_shared ⟨false, false, [Message.mk "user" "hello"]⟩
      ⟨⟨[], none⟩, ⟨[], none⟩, "t"⟩ 0 1
      (InboundFrame.mk (some "reset") none)).2.2.1 rfl,
   (conversation_store_shared ⟨false, false, [Message.mk "user" "hello"]⟩
      ⟨⟨[], none⟩, ⟨[], none⟩, "t"⟩ 0 1
      (InboundFrame.mk (some "message") (some "hi"))).2.2.2 rfl (by decide)⟩

/-- C5: with neither provider configured, a non-empty message turn emits
exactly one frame, an `error` frame whose text starts with "No LLM provider
configured", and the store afterwards holds the prior history plus the user
message and no assistant message. -/
theorem no_provider_single_error (st : ServerState) (env : TurnEnv)
    (d : InboundFrame)
    (hg : st.groq_client = false) (hm : st.gemini_model = false)
    (hty : frameType d = "message") (hc : frameContent d ≠ "") :
    (processFrame st env d).2 =
      [Frame.error "No LLM provider configured. Please set an API key."] ∧
    "No LLM provider configured" ++ ". Please set an API key." =
      "No LLM provider configured. Please set an API key." ∧
    (processFrame st env d).1.conversation_history =
      st.conversation_history ++ [Message.mk "user" (frameContent d)] := by
  refine ⟨?_, rfl, ?_⟩ <;> simp [processFrame, hty, hc, hg, hm]

/-- Witness for C5 at a concrete state and frame. -/
theorem no_provider_single_error_witness :
    (processFrame ⟨false, false, []⟩ ⟨⟨[], none⟩, ⟨[], none⟩, "t"⟩
        (InboundFrame.mk (some "message") (some "hello"))).2 =
      [Frame.error "No LLM provider configured. Please set an API key."] ∧
    "No LLM provider configured" ++ ". Please set an API key." =
      "No LLM provider configured. Please set an API key." ∧
    (processFrame ⟨false, false, []⟩ ⟨⟨[], none⟩, ⟨[], none⟩, "t"⟩
        (InboundFrame.mk (some "message") (some "hello"))).1.conversation_history =
      [] ++ [Message.mk "user" "hello"] :=
  no_provider_single_error ⟨false, false, []⟩ ⟨⟨[], none⟩, ⟨[], none⟩, "t"⟩
    (InboundFrame.mk (some "message") (some "hello")) rfl rfl rfl (by decide)

/-- C8: with only Gemini configured, a message turn is independent of the
Groq behaviour (Groq is never attempted), and a Gemini failure surfaces
directly as the terminal `error` frame with no further attempt: the frames
are the thinking frame, the Gemini chunks already relayed, and the error. -/
theorem secondary_only_never_attempts_primary
    (st : ServerState) (gr gr' ge : StreamResult) (now : String)
    (d : InboundFrame)
    (hg : st.groq_client = false) (hm : st.gemini_model = true)
    (hty : frameType d = "message") (hc : frameContent d ≠ "") :
    processFrame st ⟨gr, ge, now⟩ d = processFrame st ⟨gr', ge, now⟩ d ∧
    (∀ e, ge.err = some e →
      (processFrame st ⟨gr, ge, now⟩ d).2 =
        Frame.thinking "Thinking..." :: (sentChunks ge).map Frame.token ++
          [Frame.error ("Error generating response: " ++ e)]) := by
  constructor
  · simp [processFrame, hty, hc, hg, hm]
  · intro e hge
    simp [processFrame, generate_gemini_response, hty, hc, hg, hm, hge]

/-- Witness for C8 at a concrete state, with two different Groq behaviours
and a failing Gemini stream. -/
theorem secondary_only_never_attempts_primary_witness :
    (processFrame ⟨false, true, []⟩
        ⟨⟨["x"], none⟩, ⟨["ok", ""], some "gem down"⟩, "t"⟩
        (InboundFrame.mk none (some "hi")) =
      processFrame ⟨false, true, []⟩
        ⟨⟨[], some "gone"⟩, ⟨["ok", ""], some "gem down"⟩, "t"⟩
        (InboundFrame.mk none (some "hi"))) ∧
    (processFrame ⟨false, true, []⟩
        ⟨⟨["x"], none⟩, ⟨["ok", ""], some "gem down"⟩, "t"⟩
        (InboundFrame.mk none (some "hi"))).2 =
      Frame.thinking "Thinking..." ::
        (sentChunks ⟨["ok", ""], some "gem down"⟩).map Frame.token ++
        [Frame.error ("Error generating response: " ++ "gem down")] :=
  ⟨(secondary_only_never_attempts_primary ⟨false, true, []⟩ ⟨["x"], none⟩
      ⟨[], some "gone"⟩ ⟨["ok", ""], some "gem down"⟩ "t"
      (InboundFrame.mk none (some "hi")) rfl rfl rfl (by decide)).1,
   (secondary_only_never_attempts_primary ⟨false, true, []⟩ ⟨["x"], none⟩
      ⟨[], some "gone"⟩ ⟨["ok", ""], some "gem down"⟩ "t"
      (InboundFrame.mk none (some "hi")) rfl rfl rfl (by decide)).2
      "gem down" rfl⟩

/-- C1: with Groq configured but failing at any point (after an arbitrary
partial chunk list `gr` was already relayed) and Gemini configured and
succeeding, the last frame of the turn is a `complete` frame carrying
exactly the full Gemini output, and the assistant message appended to the
store is exactly that Gemini output, appended after the user message; no
partial Groq text enters either. -/
theorem primary_fails_secondary_wins
    (st : ServerState) (gr ge : List String) (e now : String)
    (d : InboundFrame)
    (hg : st.groq_client = true) (hm : st.gemini_model = true)
    (hty : frameType d = "message") (hc : frameContent d ≠ "") :
    (processFrame st ⟨⟨gr, some e⟩, ⟨ge, none⟩, now⟩ d).2.getLast? =
      some (Frame.complete (String.join (sentChunks ⟨ge, none⟩))) ∧
    (processFrame st ⟨⟨gr, some e⟩, ⟨ge, none⟩, now⟩ d).1.conversation_history =
      st.conversation_history ++
        [Message.mk "user" (frameContent d),
         Message.mk "assistant" (String.join (sentChunks ⟨ge, none⟩))] := by
  constructor <;>
    simp [processFrame, generate_groq_response, generate_gemini_response,
      hty, hc, hg, hm, getLast?_cons_concat, getLast?_cons_append_concat]

/-- Witness for C1: Groq dies after relaying "par", Gemini streams
"Hello " and "there". -/
theorem primary_fails_secondary_wins_witness :
    (processFrame ⟨true, true, []⟩
        ⟨⟨["par"], some "groq down"⟩, ⟨["Hello ", "there"], none⟩, "t"⟩
        (InboundFrame.mk (some "message") (some "hi"))).2.getLast? =
      some (Frame.complete (String.join (sentChunks ⟨["Hello ", "there"], none⟩))) ∧
    (processFrame ⟨true, true, []⟩
        ⟨⟨["par"], some "groq down"⟩, ⟨["Hello ", "there"], none⟩, "t"⟩
        (InboundFrame.mk (some "message") (some "hi"))).1.conversation_history =
      [] ++ [Message.mk "user" "hi",
        Message.mk "assistant" (String.join (sentChunks ⟨["Hello ", "there"], none⟩))] :=
  primary_fails_secondary_wins ⟨true, true, []⟩ ["par"] ["Hello ", "there"]
    "groq down" "t" (InboundFrame.mk (some "message") (some "hi"))
    rfl rfl rfl (by decide)

/-- C10: when both providers are configured and both fail, the turn carries
exactly one `error` frame, it is the last frame, its text is
"Error generating response: " followed by the Groq failure text, and the
whole turn output is independent of the Gemini failure text (which is never
sent to the client). -/
theorem both_fail_error_uses_primary_cause
    (st : ServerState) (gr ge : List String) (now e e2 e2' : String)
    (d : InboundFrame)
    (hg : st.groq_client = true) (hm : st.gemini_model = true)
    (hty : frameType d = "message") (hc : frameContent d ≠ "") :
    (processFrame st ⟨⟨gr, some e⟩, ⟨ge, some e2⟩, now⟩ d).2.getLast? =
      some (Frame.error ("Error generating response: " ++ e)) ∧
    ((processFrame st ⟨⟨gr, some e⟩, ⟨ge, some e2⟩, now⟩ d).2.filter
        Frame.isError).length = 1 ∧
    processFrame st ⟨⟨gr, some e⟩, ⟨ge, some e2⟩, now⟩ d =
      processFrame st ⟨⟨gr, some e⟩, ⟨ge, some e2'⟩, now⟩ d := by
  refine ⟨?_, ?_, ?_⟩ <;>
    simp [processFrame, generate_groq_response, generate_gemini_response,
      hty, hc, hg, hm, getLast?_cons_concat, getLast?_cons_append_concat,
      filter_isError_map_token, Frame.isError, List.filter_append, sentChunks]

/-- Witness for C10: both streams fail after partial output, with distinct
failure texts for the Gemini run on the two sides of the independence
equation. -/
theorem both_fail_error_uses_primary_cause_witness :
    (processFrame ⟨true, true, []⟩
        ⟨⟨["par"], some "groq down"⟩, ⟨["gpar"], some "gem down"⟩, "t"⟩
        (InboundFrame.mk (some "message") (some "hi"))).2.getLast? =
      some (Frame.error ("Error generating response: " ++ "groq down")) ∧
    ((processFrame ⟨true, true, []⟩
        ⟨⟨["par"], some "groq down"⟩, ⟨["gpar"], some "gem down"⟩, "t"⟩
        (InboundFrame.mk (some "message") (some "hi"))).2.filter
        Frame.isError).length = 1 ∧
    processFrame ⟨true, true, []⟩
        ⟨⟨["par"], some "groq down"⟩, ⟨["gpar"], some "gem down"⟩, "t"⟩
        (InboundFrame.mk (some "message") (some "hi")) =
      processFrame ⟨true, true, []⟩
        ⟨⟨["par"], some "groq down"⟩, ⟨["gpar"], some "other gem cause"⟩, "t"⟩
        (InboundFrame.mk (some "message") (some "hi")) :=
  both_fail_error_uses_primary_cause ⟨true, true, []⟩ ["par"] ["gpar"] "t"
    "groq down" "gem down" "other gem cause"
    (InboundFrame.mk (some "message") (some "hi")) rfl rfl rfl (by decide)

/-- C3 fails on the source: the emptiness check precedes the history
append, so an empty message turn (a "failed or empty" turn, which the claim
counts as growing the store by exactly 1) leaves the store length unchanged
while still emitting its error frame. -/
theorem empty_turn_grows_store_by_zero :
    (processFrame ⟨true, true, [Message.mk "user" "a"]⟩
        ⟨⟨[], none⟩, ⟨[], none⟩, "t"⟩
        (InboundFrame.mk (some "message") (some ""))).1.conversation_history.length
      = 1 ∧
    ¬ ((processFrame ⟨true, true, [Message.mk "user" "a"]⟩
        ⟨⟨[], none⟩, ⟨[], none⟩, "t"⟩
        (InboundFrame.mk (some "message") (some ""))).1.conversation_history.length
      = 1 + 1) ∧
    (processFrame ⟨true, true, [Message.mk "user" "a"]⟩
        ⟨⟨[], none⟩, ⟨[], none⟩, "t"⟩
        (InboundFrame.mk (some "message") (some ""))).2 =
      [Frame.error "Empty message received"] := by
  decide

/-- C3 amended: per message turn the store grows by exactly 2 when the turn
completes successfully (terminal `complete` frame), by exactly 1 when it
fails (terminal `error` frame after the user message was appended), and by
exactly 0 when the message is empty (the source rejects it before
appending). -/
theorem store_growth_per_turn (st : ServerState) (env : TurnEnv)
    (d : InboundFrame) (hty : frameType d = "message") :
    (frameContent d = "" →
      (processFrame st env d).1.conversation_history.length =
        st.conversation_history.length) ∧
    (frameContent d ≠ "" →
      ((∃ c, (processFrame st env d).2.getLast? = some (Frame.complete c)) →
        (processFrame st env d).1.conversation_history.length =
          st.conversation_history.length + 2) ∧
      ((∃ c, (processFrame st env d).2.getLast? = some (Frame.error c)) →
        (processFrame st env d).1.conversation_history.length =
          st.conversation_history.length + 1)) := by
  obtain ⟨⟨gc, gerr⟩, ⟨mc, merr⟩, now⟩ := env
  constructor
  · intro hc
    simp [processFrame, hty, hc]
  · intro hc
    cases hgq : st.groq_client <;> cases hgm : st.gemini_model <;>
      rcases gerr with _ | e <;> rcases merr with _ | e2 <;>
      constructor <;> intro hex <;>
      simp_all [processFrame, generate_groq_response, generate_gemini_response,
        hty, hc, getLast?_cons_concat, getLast?_cons_append_concat]

/-- Witness for the amended C3 statement: a successful Groq turn on an
empty store leaves exactly the user and assistant messages. -/
theorem store_growth_per_turn_witness :
    (processFrame ⟨true, true, []⟩ ⟨⟨["ok"], none⟩, ⟨[], none⟩, "t"⟩
        (InboundFrame.mk (some "message") (some "hi"))).1.conversation_history.length =
      ([] : List Message).length + 2 :=
  ((store_growth_per_turn ⟨true, true, []⟩ ⟨⟨["ok"], none⟩, ⟨[], none⟩, "t"⟩
      (InboundFrame.mk (some "message") (some "hi")) rfl).2 (by decide)).1
    ⟨"ok", by decide⟩

/-- C2 fails on the source as literally stated: a successful turn opens
with a `thinking` frame, so the frame list of the turn is not of the shape
zero-or-more token frames followed by a terminal frame. -/
theorem thinking_frame_counterexample :
    ¬ ∃ (ts : List String) (term : Frame), term.isTerminal = true ∧
      (processFrame ⟨true, false, []⟩ ⟨⟨["a"], none⟩, ⟨[], none⟩, "t"⟩
          (InboundFrame.mk (some "message") (some "hi"))).2 =
        ts.map Frame.token ++ [term] := by
  rintro ⟨ts, term, hterm, heq⟩
  have hfr : (processFrame ⟨true, false, []⟩ ⟨⟨["a"], none⟩, ⟨[], none⟩, "t"⟩
      (InboundFrame.mk (some "message") (some "hi"))).2 =
      [Frame.thinking "Thinking...", Frame.token "a", Frame.complete "a"] := by
    decide
  rw [hfr] at heq
  rcases ts with _ | ⟨a, ts⟩
  · simp at heq
  · simp at heq

/-- C2 amended: every message turn emits an optional leading `thinking`
frame, then zero-or-more `token` frames relaying exactly the truthy chunks
of the consulted provider streams in production order (Groq chunks first,
then the Gemini fallback chunks when the fallback ran), and ends with
exactly one terminal frame (`complete` or `error`), which is the last frame
of the turn. -/
theorem turn_frame_shape (st : ServerState) (env : TurnEnv) (d : InboundFrame)
    (hty : frameType d = "message") :
    ∃ (pre : List Frame) (ts : List String) (term : Frame),
      (pre = [] ∨ pre = [Frame.thinking "Thinking..."]) ∧
      term.isTerminal = true ∧
      (ts = [] ∨ ts = sentChunks env.groqRes ∨ ts = sentChunks env.gemRes ∨
        ts = sentChunks env.groqRes ++ sentChunks env.gemRes) ∧
      (processFrame st env d).2 = pre ++ ts.map Frame.token ++ [term] := by
  obtain ⟨⟨gc, gerr⟩, ⟨mc, merr⟩, now⟩ := env
  by_cases hc : frameContent d = ""
  · exact ⟨[], [], Frame.error "Empty message received", Or.inl rfl, rfl,
      Or.inl rfl, by simp [processFrame, hty, hc]⟩
  · cases hgq : st.groq_client <;> cases hgm : st.gemini_model
    · exact ⟨[], [], Frame.error "No LLM provider configured. Please set an API key.",
        Or.inl rfl, rfl, Or.inl rfl, by simp [processFrame, hty, hc, hgq, hgm]⟩
    · rcases merr with _ | e2
      · exact ⟨[Frame.thinking "Thinking..."], sentChunks ⟨mc, none⟩,
          Frame.complete (String.join (sentChunks ⟨mc, none⟩)),
          Or.inr rfl, rfl, Or.inr (Or.inr (Or.inl rfl)),
          by simp [processFrame, generate_gemini_response, hty, hc, hgq, hgm]⟩
      · exact ⟨[Frame.thinking "Thinking..."], sentChunks ⟨mc, some e2⟩,
          Frame.error ("Error generating response: " ++ e2),
          Or.inr rfl, rfl, Or.inr (Or.inr (Or.inl rfl)),
          by simp [processFrame, generate_gemini_response, hty, hc, hgq, hgm]⟩
    · rcases gerr with _ | e
      · exact ⟨[Frame.thinking "Thinking..."], sentChunks ⟨gc, none⟩,
          Frame.complete (String.join (sentChunks ⟨gc, none⟩)),
          Or.inr rfl, rfl, Or.inr (Or.inl rfl),
          by simp [processFrame, generate_groq_response, hty, hc, hgq, hgm]⟩
      · exact ⟨[Frame.thinking "Thinking..."], sentChunks ⟨gc, some e⟩,
          Frame.error ("Error generating response: " ++ e),
          Or.inr rfl, rfl, Or.inr (Or.inl rfl),
          by simp [processFrame, generate_groq_response, hty, hc, hgq, hgm]⟩
    · rcases gerr with _ | e
      · exact ⟨[Frame.thinking "Thinking..."], sentChunks ⟨gc, none⟩,
          Frame.complete (String.join (sentChunks ⟨gc, none⟩)),
          Or.inr rfl, rfl, Or.inr (Or.inl rfl),
          by simp [processFrame, generate_groq_response, hty, hc, hgq, hgm]⟩
      · rcases merr with _ | e2
        · exact ⟨[Frame.thinking "Thinking..."],
            sentChunks ⟨gc, some e⟩ ++ sentChunks ⟨mc, none⟩,
            Frame.complete (String.join (sentChunks ⟨mc, none⟩)),
            Or.inr rfl, rfl, Or.inr (Or.inr (Or.inr rfl)),
            by simp [processFrame, generate_groq_response, generate_gemini_response,
              hty, hc, hgq, hgm]⟩
        · exact ⟨[Frame.thinking "Thinking..."],
            sentChunks ⟨gc, some e⟩ ++ sentChunks ⟨mc, some e2⟩,
            Frame.error ("Error generating response: " ++ e),
            Or.inr rfl, rfl, Or.inr (Or.inr (Or.inr rfl)),
            by simp [processFrame, generate_groq_response, generate_gemini_response,
              hty, hc, hgq, hgm]⟩

/-- Witness for the amended C2 statement at a concrete fallback turn. -/
theorem turn_frame_shape_witness :
    ∃ (pre : List Frame) (ts : List String) (term : Frame),
      (pre = [] ∨ pre = [Frame.thinking "Thinking..."]) ∧
      term.isTerminal = true ∧
      (ts = [] ∨
        ts = sentChunks ⟨["p"], some "boom"⟩ ∨
        ts = sentChunks ⟨["q"], none⟩ ∨
        ts = sentChunks ⟨["p"], some "boom"⟩ ++ sentChunks ⟨["q"], none⟩) ∧
      (processFrame ⟨true, true, []⟩ ⟨⟨["p"], some "boom"⟩, ⟨["q"], none⟩, "t"⟩
          (InboundFrame.mk (some "message") (some "hi"))).2 =
        pre ++ ts.map Frame.token ++ [term] :=
  turn_frame_shape ⟨true, true, []⟩ ⟨⟨["p"], some "boom"⟩, ⟨["q"], none⟩, "t"⟩
    (InboundFrame.mk (some "message") (some "hi")) rfl

/-- C6: both request builders submit the fixed system prompt as the leading
instruction followed by exactly the last at most 10 history messages — a
suffix of the history, hence in chronological order and never more than 10
messages — while a message turn only ever extends the store (the prior
history stays a prefix) and the conversation query returns the full
history. -/
theorem provider_request_bounded (messages : List Message) (res : StreamResult)
    (st : ServerState) (env : TurnEnv) (d : InboundFrame)
    (hty : frameType d = "message") :
    (generate_groq_response messages res).1 =
      Message.mk "system" SYSTEM_PROMPT ::
        (takeLast 10 messages).map (fun msg =>
          Message.mk (if msg.role = "user" then "user" else "assistant") msg.content) ∧
    (generate_gemini_response messages res).1 =
      SYSTEM_PROMPT ++ "\n\nConversation so far:\n" ++
        String.join ((takeLast 10 messages).map (fun msg =>
          (if msg.role = "user" then "Interviewer" else "You") ++ ": " ++
            msg.content ++ "\n")) ++
        "\nYou:" ∧
    (takeLast 10 messages).length ≤ 10 ∧
    takeLast 10 messages <:+ messages ∧
    st.conversation_history <+: (processFrame st env d).1.conversation_history ∧
    get_conversation st = st.conversation_history := by
  obtain ⟨cs, err⟩ := res
  refine ⟨?_, ?_, ?_, List.drop_suffix _ _, ?_, rfl⟩
  · cases err <;> rfl
  · cases err <;> rfl
  · simp only [takeLast, List.length_drop]
    omega
  · by_cases hc : frameContent d = ""
    · simp [processFrame, hty, hc]
    · obtain ⟨⟨gc, gerr⟩, ⟨mc, merr⟩, now⟩ := env
      cases hgq : st.groq_client <;> cases hgm : st.gemini_model <;>
        rcases gerr with _ | e <;> rcases merr with _ | e2 <;>
        simp [processFrame, generate_groq_response, generate_gemini_response,
          hty, hc, hgq, hgm, List.append_assoc]

/-- Witness for C6 on a concrete 12-message history and a concrete turn. -/
theorem provider_request_bounded_witness :
    (generate_groq_response
        ((List.range 12).map (fun i => Message.mk "user" (toString i)))
        ⟨["x"], none⟩).1 =
      Message.mk "system" SYSTEM_PROMPT ::
        (takeLast 10 ((List.range 12).map (fun i => Message.mk "user" (toString i)))).map
          (fun msg =>
            Message.mk (if msg.role = "user" then "user" else "assistant") msg.content) ∧
    (generate_gemini_response
        ((List.range 12).map (fun i => Message.mk "user" (toString i)))
        ⟨["x"], none⟩).1 =
      SYSTEM_PROMPT ++ "\n\nConversation so far:\n" ++
        String.join
          ((takeLast 10 ((List.range 12).map (fun i => Message.mk "user" (toString i)))).map
            (fun msg =>
              (if msg.role = "user" then "Interviewer" else "You") ++ ": " ++
                msg.content ++ "\n")) ++
        "\nYou:" ∧
    (takeLast 10 ((List.range 12).map (fun i => Message.mk "user" (toString i)))).length ≤ 10 ∧
    takeLast 10 ((List.range 12).map (fun i => Message.mk "user" (toString i))) <:+
      (List.range 12).map (fun i => Message.mk "user" (toString i)) ∧
    ([Message.mk "user" "old"] : List Message) <+:
      (processFrame ⟨true, false, [Message.mk "user" "old"]⟩
        ⟨⟨["x"], none⟩, ⟨[], none⟩, "t"⟩
        (InboundFrame.mk (some "message") (some "hi"))).1.conversation_history ∧
    get_conversation ⟨true, false, [Message.mk "user" "old"]⟩ =
      [Message.mk "user" "old"] :=
  provider_request_bounded
    ((List.range 12).map (fun i => Message.mk "user" (toString i))) ⟨["x"], none⟩
    ⟨true, false, [Message.mk "user" "old"]⟩ ⟨⟨["x"], none⟩, ⟨[], none⟩, "t"⟩
    (InboundFrame.mk (some "message") (some "hi")) rfl

end AvatarBackend
